import Mathlib

/-!
Verification of the SOUL AudioPlayerVenue / AudioPlayerSession engine
(source/modules/soul_venue_audioplayer/audio_player/soul_AudioPlayer.cpp).

The C++ code is shallowly embedded: the session lifecycle state machine,
the MIDI packing routine, the hardware-callback warm-up logic, the stalled
processor watchdog, the endpoint connection negotiation and the
active-session registry are translated into executable Lean definitions,
and the specification claims are settled as theorems about them.

The Performer collaborator is external to the audio-player source file;
where its behaviour matters (load/unload contract) it is modelled from the
specification, and this is flagged at the definition.
-/

namespace SoulAudioPlayer

/-- Session lifecycle states, from Venue::Session::State:
empty, loaded, linked, running. -/
inductive State
  | empty
  | loaded
  | linked
  | running
  deriving DecidableEq, Repr

/-- Endpoint kinds, from the soul_core EndpointKind enumeration
(value, stream, event). -/
inductive EndpointKind
  | value
  | stream
  | event
  deriving DecidableEq, Repr

/-- The isStream helper from soul_core: true exactly on stream endpoints. -/
def isStream : EndpointKind → Bool
  | EndpointKind.stream => true
  | _ => false

/-- The isEvent helper from soul_core: true exactly on event endpoints. -/
def isEvent : EndpointKind → Bool
  | EndpointKind.event => true
  | _ => false

/-- Modelled from the spec: the Performer collaborator (its implementation
is not part of the audio-player source file). Programs are abstracted as
natural numbers; `accepts` records which programs resolve into the
Performer representation without diagnostic errors; `program` is the
currently installed program, `none` when unloaded. `inputEndpoints` and
`outputEndpoints` list the endpoint descriptors of the loaded program
(id paired with kind); getInputSource and getOutputSink return a handle
exactly when the id appears in the corresponding list. -/
structure Performer where
  accepts : Nat → Bool
  program : Option Nat
  inputEndpoints : List (Nat × EndpointKind)
  outputEndpoints : List (Nat × EndpointKind)

/-- Modelled from the spec: Performer::unload discards any installed
program (section 6, and section 7: no partial program is ever left
active). -/
def performerUnload (p : Performer) : Performer :=
  { p with program := none }

/-- Modelled from the spec: Performer::load succeeds iff the program
resolves without diagnostic errors, installing it; on failure no partial
program remains active (sections 6 and 7). -/
def performerLoad (p : Performer) (prog : Nat) : Performer × Bool :=
  if p.accepts prog then ({ p with program := some prog }, true)
  else ({ p with program := none }, false)

/-- One AudioPlayerSession: its Performer, the at-most-one adapters
(input stream, output stream, MIDI event queue — each stored as the
endpoint id it references, the stream ones paired with their starting
physical channel index), and the lifecycle state. The state-change
callback is not stored: the operations below instead return the list of
transitions at which the callback would have been invoked. -/
structure Session where
  perf : Performer
  audioDeviceInputStream : Option (Nat × Nat)
  audioDeviceOutputStream : Option (Nat × Nat)
  midiEventQueue : Option Nat
  state : State

/-- AudioPlayerSession::setState, lines 187-196: if the state differs from
newState, install newState and invoke the state-change callback. The
returned list holds the (old, new) pair at each callback invocation
(the C++ callback receives the new state; the old component is the state
at call time). -/
def setState (s : Session) (newState : State) : Session × List (State × State) :=
  if s.state ≠ newState then ({ s with state := newState }, [(s.state, newState)])
  else (s, [])

/-- AudioPlayerSession::isRunning. -/
def isRunning (s : Session) : Bool :=
  s.state == State.running

/-- AudioPlayerSession::start, lines 139-149: when linked, register with
the venue (AudioPlayerVenue::startSession unconditionally returns true)
and move to running; the return value is isRunning() after the attempt. -/
def start (s : Session) : Session × Bool × List (State × State) :=
  let (s1, tr) :=
    if s.state = State.linked then setState s State.running
    else (s, [])
  (s1, isRunning s1, tr)

/-- AudioPlayerSession::stop, lines 151-158: when running, deregister from
the venue and revert to linked; otherwise do nothing. -/
def stop (s : Session) : Session × List (State × State) :=
  if isRunning s then setState s State.linked
  else (s, [])

/-- AudioPlayerSession::unload, lines 160-165: stop, discard the program,
reset to empty. -/
def unload (s : Session) : Session × List (State × State) :=
  let (s1, tr1) := stop s
  let s2 := { s1 with perf := performerUnload s1.perf }
  let (s3, tr2) := setState s2 State.empty
  (s3, tr1 ++ tr2)

/-- AudioPlayerSession::load, lines 111-121: unload first, then ask the
Performer to load; on success move to loaded and return true, otherwise
return false. -/
def load (s : Session) (prog : Nat) : Session × Bool × List (State × State) :=
  let (s1, tr1) := unload s
  let (p2, ok) := performerLoad s1.perf prog
  let s2 := { s1 with perf := p2 }
  if ok then
    let (s3, tr2) := setState s2 State.loaded
    (s3, true, tr1 ++ tr2)
  else
    (s2, false, tr1)

/-- AudioPlayerSession::link, lines 123-132: legal only from loaded; the
Performer link outcome is abstracted as the boolean linkOk. -/
def link (s : Session) (linkOk : Bool) : Session × Bool × List (State × State) :=
  if s.state = State.loaded ∧ linkOk = true then
    let (s1, tr) := setState s State.linked
    (s1, true, tr)
  else (s, false, [])

/-- A session with a trivial Performer in a given state, used to evaluate
the theorems on concrete inputs. -/
def mkSession (st : State) : Session :=
  { perf := { accepts := fun _ => true, program := none,
              inputEndpoints := [], outputEndpoints := [] }
    audioDeviceInputStream := none
    audioDeviceOutputStream := none
    midiEventQueue := none
    state := st }

/-- The warm-up sample count, line 547: static constexpr numWarmUpSamples
= 15000. -/
def numWarmUpSamples : Nat := 15000

/-- Observable effect of one AudioPlayerVenue::audioDeviceIOCallback
invocation, lines 609-640. -/
structure CallbackRecord where
  sessionsProcessed : Bool
  outputCleared : Bool
  totalSamplesAfter : Nat
  callbackCountAfter : Nat
  deriving DecidableEq, Repr

/-- AudioPlayerVenue::audioDeviceIOCallback, lines 609-640: the callback
increments audioCallbackCount, clears every output channel, invokes
processBlock on the active sessions only when totalSamplesProcessed (the
count accumulated BEFORE this callback) strictly exceeds numWarmUpSamples,
and finally adds numSamples to totalSamplesProcessed. -/
def audioDeviceIOCallback (totalSamplesProcessed audioCallbackCount numSamples : Nat) :
    CallbackRecord :=
  { sessionsProcessed := decide (totalSamplesProcessed > numWarmUpSamples)
    outputCleared := true
    totalSamplesAfter := totalSamplesProcessed + numSamples
    callbackCountAfter := audioCallbackCount + 1 }

/-- A run of consecutive hardware callbacks: from the given counters,
process each block size in turn, threading totalSamplesProcessed and
audioCallbackCount exactly as the callback does. -/
def runCallbacks (totalSamplesProcessed audioCallbackCount : Nat) :
    List Nat → List CallbackRecord
  | [] => []
  | numSamples :: rest =>
      let r := audioDeviceIOCallback totalSamplesProcessed audioCallbackCount numSamples
      r :: runCallbacks r.totalSamplesAfter r.callbackCountAfter rest

/-- AudioPlayerSession::packMIDIMessageIntoInt, lines 290-308: byte 0
goes to bits 16-23, byte 1 (when present) to bits 8-15, byte 2 (when
present) to bits 0-7. The message always has at least one byte; headD
covers the degenerate empty case. -/
def packMIDIMessageIntoInt (rawData : List Nat) : Nat :=
  let m := (rawData.headD 0) <<< 16
  let m := if rawData.length > 1 then m ||| ((rawData.getD 1 0) <<< 8) else m
  if rawData.length > 2 then m ||| (rawData.getD 2 0) else m

/-- AudioPlayerVenue::handleIncomingMidiMessage, lines 643-651: a message
of fewer than 4 bytes is appended to the incoming queue; longer messages
are ignored. -/
def handleIncomingMidiMessage (incomingMIDI : List (List Nat)) (message : List Nat) :
    List (List Nat) :=
  if message.length < 4 then incomingMIDI ++ [message] else incomingMIDI

/-- The watchdog timeout of 2 seconds, line 669: RelativeTime::seconds (2). -/
def stallTimeoutSeconds : Nat := 2

/-- The two fields of AudioPlayerVenue consulted by the watchdog:
lastCallbackCount and lastCallbackCountChange (a time). Both start at
zero: lastCallbackCount is reset in audioDeviceAboutToStart and
lastCallbackCountChange is default-initialized to the time origin. -/
structure WatchdogState where
  lastCallbackCount : Nat
  lastCallbackCountChange : Nat
  deriving DecidableEq, Repr

/-- AudioPlayerVenue::checkForStalledProcessor, lines 659-674: record any
observed advance of audioCallbackCount together with the current time;
then the process is terminated when the recorded count is nonzero and the
current time exceeds the last recorded change time by more than the
timeout. The boolean reports whether std::terminate fired. -/
def checkForStalledProcessor (w : WatchdogState) (now audioCallbackCount : Nat) :
    WatchdogState × Bool :=
  let w :=
    if w.lastCallbackCount ≠ audioCallbackCount then
      { lastCallbackCount := audioCallbackCount, lastCallbackCountChange := now }
    else w
  (w, decide (w.lastCallbackCount ≠ 0 ∧
              now > w.lastCallbackCountChange + stallTimeoutSeconds))

/-- The watchdog state after the first k timer checks, where the k-th
check observes time (now k) and counter value (count k). -/
def wdState (now count : Nat → Nat) : Nat → WatchdogState
  | 0 => { lastCallbackCount := 0, lastCallbackCountChange := 0 }
  | k + 1 => (checkForStalledProcessor (wdState now count k) (now k) (count k)).1

/-- Whether the k-th timer check fires the termination path. -/
def wdFires (now count : Nat → Nat) (k : Nat) : Bool :=
  (checkForStalledProcessor (wdState now count k) (now k) (count k)).2

/-- Whether the process is still alive when the k-th check runs:
std::terminate at any earlier check would have killed it. -/
def wdAlive (now count : Nat → Nat) (k : Nat) : Bool :=
  (List.range k).all (fun j => ! wdFires now count j)

/-- How many times the termination path actually fires within the first n
checks: a check terminates the process only if the process is still alive
when it runs. -/
def wdTerminationCount (now count : Nat → Nat) (n : Nat) : Nat :=
  ((List.range n).filter (fun k => wdAlive now count k && wdFires now count k)).length

/-- The per-endpoint record the venue publishes, from the EndpointInfo
struct (lines 549-556): the endpoint id and kind from its details, the
physical channel index and the MIDI flag. -/
structure EndpointInfo where
  endpointID : Nat
  kind : EndpointKind
  audioChannelIndex : Nat
  isMIDI : Bool
  deriving DecidableEq, Repr

/-- AudioPlayerVenue::findEndpoint, lines 558-566: first entry whose
details carry the requested endpoint id. -/
def findEndpoint (endpoints : List EndpointInfo) (endpointID : Nat) : Option EndpointInfo :=
  endpoints.find? (fun e => e.endpointID == endpointID)

/-- The venue state consulted by the connection entry points: whether an
audio device is open, and the published source and sink endpoint lists. -/
structure VenueModel where
  audioDeviceOpen : Bool
  sourceEndpoints : List EndpointInfo
  sinkEndpoints : List EndpointInfo

/-- AudioPlayerSession::connectInputEndpoint, lines 236-266: succeeds only
when the Performer has an input source for the id; a stream endpoint must
not be connected to a MIDI venue source (it installs the input stream
adapter), an event endpoint only to a MIDI venue source (it installs the
MIDI event queue); any other kind fails. -/
def connectInputEndpoint (s : Session) (audioChannelIndex : Nat) (isMIDI : Bool)
    (inputID : Nat) : Session × Bool :=
  match s.perf.inputEndpoints.lookup inputID with
  | some kind =>
      if isStream kind then
        if isMIDI then (s, false)
        else ({ s with audioDeviceInputStream := some (inputID, audioChannelIndex) }, true)
      else if isEvent kind then
        if isMIDI = false then (s, false)
        else ({ s with midiEventQueue := some inputID }, true)
      else (s, false)
  | none => (s, false)

/-- AudioPlayerSession::connectOutputEndpoint, lines 268-286: succeeds
only for a stream endpoint against a non-MIDI venue sink (installing the
output stream adapter); event and value kinds always fail. -/
def connectOutputEndpoint (s : Session) (audioChannelIndex : Nat) (isMIDI : Bool)
    (outputID : Nat) : Session × Bool :=
  match s.perf.outputEndpoints.lookup outputID with
  | some kind =>
      if isStream kind then
        if isMIDI then (s, false)
        else ({ s with audioDeviceOutputStream := some (outputID, audioChannelIndex) }, true)
      else (s, false)
  | none => (s, false)

/-- AudioPlayerVenue::connectSessionInputEndpoint, lines 68-77: requires
an open device and a published source endpoint with the requested id,
then delegates to the session. -/
def connectSessionInputEndpoint (v : VenueModel) (s : Session)
    (inputID venueSourceID : Nat) : Session × Bool :=
  if v.audioDeviceOpen then
    match findEndpoint v.sourceEndpoints venueSourceID with
    | some e => connectInputEndpoint s e.audioChannelIndex e.isMIDI inputID
    | none => (s, false)
  else (s, false)

/-- AudioPlayerVenue::connectSessionOutputEndpoint, lines 79-88: requires
an open device and a published sink endpoint with the requested id, then
delegates to the session. -/
def connectSessionOutputEndpoint (v : VenueModel) (s : Session)
    (outputID venueSinkID : Nat) : Session × Bool :=
  if v.audioDeviceOpen then
    match findEndpoint v.sinkEndpoints venueSinkID with
    | some e => connectOutputEndpoint s e.audioChannelIndex e.isMIDI outputID
    | none => (s, false)
  else (s, false)

/-- The removeFirst helper used by AudioPlayerVenue::stopSession: remove
the first element matching the given session, keep the rest. Sessions in
the registry are abstracted as natural-number identities. -/
def removeFirst : List Nat → Nat → List Nat
  | [], _ => []
  | x :: rest, s => if x = s then rest else x :: removeFirst rest s

/-- AudioPlayerVenue::startSession, lines 502-510: under the registry
lock, append the session unless already present; always returns true. -/
def startSession (activeSessions : List Nat) (s : Nat) : List Nat × Bool :=
  if activeSessions.contains s then (activeSessions, true)
  else (activeSessions ++ [s], true)

/-- AudioPlayerVenue::stopSession, lines 512-517: under the registry lock,
remove the first occurrence of the session; always returns true. -/
def stopSession (activeSessions : List Nat) (s : Nat) : List Nat × Bool :=
  (removeFirst activeSessions s, true)

/-- The Requirements fields sanitized by the AudioPlayerVenue constructor.
The C++ sampleRate is a double compared against exactly representable
constants, so it is modelled as a rational; blockSize is an int. -/
structure Requirements where
  sampleRate : ℚ
  blockSize : ℤ

/-- The sanitization at the top of the AudioPlayerVenue constructor,
lines 31-39: a sampleRate below 1000 or above 48000 * 8 becomes 0, a
blockSize below 1 or above 2048 becomes 0. -/
def sanitizeRequirements (r : Requirements) : Requirements :=
  { sampleRate := if r.sampleRate < 1000 ∨ r.sampleRate > 48000 * 8 then 0 else r.sampleRate
    blockSize := if r.blockSize < 1 ∨ r.blockSize > 2048 then 0 else r.blockSize }

/-- The (sampleRate, blockSize) pair the constructor hands to
audioDevice->open inside openAudioDevice (lines 702-705): the constructor
sanitizes its Requirements before calling openAudioDevice, so the device
only ever sees the sanitized values. -/
def venueConstructorDeviceArgs (r : Requirements) : ℚ × ℤ :=
  let r2 := sanitizeRequirements r
  (r2.sampleRate, r2.blockSize)

/-! ## Helper lemmas about setState traces -/

/-- Every callback invocation recorded by setState is a real transition:
the old and new states differ, the old state is the state at call time and
the new state is the requested one. -/
lemma setState_mem_trace (s : Session) (t : State) :
    ∀ pr ∈ (setState s t).2, pr.1 ≠ pr.2 ∧ pr.1 = s.state ∧ pr.2 = t := by
  intro pr hpr
  unfold setState at hpr
  by_cases h : s.state = t
  · simp [h] at hpr
  · simp [h] at hpr
    subst hpr
    exact ⟨h, rfl, rfl⟩

/-- setState records no callback invocation exactly when the state is
unchanged. -/
lemma setState_trace_nil (s : Session) (t : State) :
    (setState s t).2 = [] ↔ s.state = t := by
  unfold setState
  by_cases h : s.state = t <;> simp [h]

/-! ## Claims C1, C2, C7, C9: the session lifecycle state machine -/

/-- Claim C1, counterexample: a session that is already running is not in
state linked, yet start() returns true (it returns isRunning()), so the
claimed equivalence between returning true and having been linked at call
time fails. -/
theorem claim_C1_counterexample :
    (mkSession State.running).state ≠ State.linked ∧
    (start (mkSession State.running)).2.1 = true :=
  ⟨by decide, rfl⟩

/-- Claim C1 as amended: start() returns true iff the state at call time
was linked or running (it returns isRunning() after the attempt); from
linked it moves the session to running; from every other state it is a
no-op leaving the whole session, hence also isRunning(), unchanged. -/
theorem claim_C1_amended (s : Session) :
    (start s).2.1 = (s.state == State.linked || s.state == State.running) ∧
    (start s).1 = (if s.state = State.linked then { s with state := State.running } else s) := by
  obtain ⟨perf, a, b, c, st⟩ := s
  cases st <;> simp [start, setState, isRunning]

/-- Claim C2, counterexample: stop() on a session in state empty leaves
it in state empty, not linked, so "after stop() the state is linked" does
not hold for every prior state. -/
theorem claim_C2_counterexample :
    (stop (mkSession State.empty)).1.state = State.empty ∧ State.empty ≠ State.linked :=
  ⟨rfl, by decide⟩

/-- Claim C2 as amended: stop() lands on linked exactly when the prior
state was running and otherwise leaves the session unchanged; in
particular stop() lands on empty only when the state already was empty;
and unload() lands on empty from every prior state. -/
theorem claim_C2_amended (s : Session) :
    (stop s).1 = (if s.state = State.running then { s with state := State.linked } else s) ∧
    (unload s).1.state = State.empty ∧
    ((stop s).1.state = State.empty ↔ s.state = State.empty) := by
  obtain ⟨perf, a, b, c, st⟩ := s
  cases st <;> simp [stop, unload, setState, isRunning, performerUnload]

/-- Claim C7: load() first unloads, so the previously installed program
never survives; it returns true and lands on loaded exactly when the
Performer accepts the program, in which case that program is installed;
on rejection the state is empty and no program (in particular no partial
program) remains active. -/
theorem claim_C7_load (s : Session) (prog : Nat) :
    (load s prog).2.1 = s.perf.accepts prog ∧
    (load s prog).1.state = (if s.perf.accepts prog then State.loaded else State.empty) ∧
    (load s prog).1.perf.program = (if s.perf.accepts prog then some prog else none) := by
  obtain ⟨⟨acc, prm, ie, oe⟩, a, b, c, st⟩ := s
  cases st <;> by_cases h : acc prog = true <;>
    simp [load, unload, stop, setState, isRunning, performerUnload, performerLoad, h]

/-- Claim C9: the state-change callback is invoked exactly at real
transitions. At the level of setState (the only place the callback is
invoked): no invocation happens iff the state is unchanged, and every
invocation carries a pair of distinct states (the state at call time and
the requested new state). Consequently every lifecycle operation invokes
the callback only at transitions whose old and new states differ, and an
operation that performs no internal transition invokes it not at all. -/
theorem claim_C9_callback (s : Session) (t : State) (prog : Nat) (linkOk : Bool) :
    ((setState s t).2 = [] ↔ s.state = t) ∧
    (∀ pr ∈ (setState s t).2, pr.1 ≠ pr.2 ∧ pr.1 = s.state ∧ pr.2 = t) ∧
    (∀ pr ∈ (start s).2.2, pr.1 ≠ pr.2) ∧
    (∀ pr ∈ (stop s).2, pr.1 ≠ pr.2) ∧
    (∀ pr ∈ (unload s).2, pr.1 ≠ pr.2) ∧
    (∀ pr ∈ (load s prog).2.2, pr.1 ≠ pr.2) ∧
    (∀ pr ∈ (link s linkOk).2.2, pr.1 ≠ pr.2) := by
  refine ⟨setState_trace_nil s t, setState_mem_trace s t, ?_, ?_, ?_, ?_, ?_⟩ <;>
  · obtain ⟨⟨acc, prm, ie, oe⟩, a, b, c, st⟩ := s
    cases st <;> by_cases h : acc prog = true <;> by_cases hl : linkOk = true <;>
      simp [start, stop, unload, load, link, setState, isRunning,
            performerUnload, performerLoad, h, hl]

/-- Witness for claim C9 at a concrete session: moving an empty session to
loaded is a real transition, so the recorded callback trace is nonempty. -/
theorem claim_C9_witness :
    State.empty ≠ State.loaded ∧
    (setState (mkSession State.empty) State.loaded).2 ≠ [] := by
  refine ⟨by decide, fun he => ?_⟩
  have h := (claim_C9_callback (mkSession State.empty) State.loaded 0 true).1
  exact absurd (h.mp he) (by decide)

/-! ## Claim C3: the warm-up period of the hardware callback -/

/-- A run of callbacks produces one record per block. -/
lemma runCallbacks_length (blocks : List Nat) :
    ∀ total cnt, (runCallbacks total cnt blocks).length = blocks.length := by
  induction blocks with
  | nil => intro total cnt; rfl
  | cons b rest ih =>
      intro total cnt
      simp [runCallbacks, ih]

/-- The record of the i-th callback in a run: sessions are handed the
block exactly when the samples accumulated before that callback strictly
exceed the warm-up count, and the output buffers are always cleared
first. -/
lemma runCallbacks_get (blocks : List Nat) :
    ∀ (total cnt i : Nat) (h : i < (runCallbacks total cnt blocks).length),
      ((runCallbacks total cnt blocks).get ⟨i, h⟩).sessionsProcessed
          = decide (total + (blocks.take i).sum > numWarmUpSamples) ∧
      ((runCallbacks total cnt blocks).get ⟨i, h⟩).outputCleared = true := by
  induction blocks with
  | nil => intro total cnt i h; simp [runCallbacks] at h
  | cons b rest ih =>
      intro total cnt i h
      cases i with
      | zero => simp [runCallbacks, audioDeviceIOCallback]
      | succ i =>
          have := ih (total + b) (cnt + 1) i (by
            simpa [runCallbacks, audioDeviceIOCallback] using Nat.lt_of_succ_lt_succ h)
          simpa [runCallbacks, audioDeviceIOCallback, Nat.add_assoc] using this

/-- Claim C3, counterexample: with the accumulated sample count at zero
(well inside the warm-up period) a callback does not invoke processBlock
on any session at all, refuting that sessions still run, processing
silence, during warm-up. -/
theorem claim_C3_counterexample :
    ((runCallbacks 0 0 [512]).map (fun r => r.sessionsProcessed) = [false]) ∧
    512 ≤ numWarmUpSamples := by decide

/-- Claim C3 as amended: in a run of hardware callbacks starting from a
freshly started device, the i-th callback hands audio and MIDI to the
sessions (invokes processBlock) exactly when the samples processed by the
earlier callbacks strictly exceed the warm-up count of 15000 — so nothing
reaches any session before that; during the warm-up period the sessions
do not run at all, and the output channels are cleared, so the device
outputs silence. -/
theorem claim_C3_amended (blocks : List Nat) (i : Nat)
    (h : i < (runCallbacks 0 0 blocks).length) :
    (((runCallbacks 0 0 blocks).get ⟨i, h⟩).sessionsProcessed = true ↔
        (blocks.take i).sum > numWarmUpSamples) ∧
    ((runCallbacks 0 0 blocks).get ⟨i, h⟩).outputCleared = true := by
  have hg := runCallbacks_get blocks 0 0 i h
  refine ⟨?_, hg.2⟩
  rw [hg.1]
  simp

/-- Witness for claim C3: in a run with blocks of 512 and 20000 samples,
the second callback still withholds data from the sessions, because only
512 samples were processed before it. -/
theorem claim_C3_witness :
    ((runCallbacks 0 0 [512, 20000]).get ⟨1, by decide⟩).sessionsProcessed = false := by
  have h := (claim_C3_amended [512, 20000] 1 (by decide)).1
  simp [numWarmUpSamples] at h
  exact h

/-! ## Claim C4: MIDI packing and rejection of long messages -/

/-- Claim C4: packing bytes [b0, b1, b2] yields b0 * 2^16 + b1 * 2^8 + b2,
shorter messages contribute 0 for the missing bytes, the concrete message
[0x90, 0x40, 0x7F] packs to 0x90407F, and every incoming message of 4 or
more bytes is rejected before being queued. -/
theorem claim_C4_midiPacking (b0 b1 b2 : Nat) (h1 : b1 < 256) (h2 : b2 < 256) :
    packMIDIMessageIntoInt [b0, b1, b2] = b0 * 65536 + b1 * 256 + b2 ∧
    packMIDIMessageIntoInt [b0, b1] = b0 * 65536 + b1 * 256 ∧
    packMIDIMessageIntoInt [b0] = b0 * 65536 ∧
    packMIDIMessageIntoInt [0x90, 0x40, 0x7F] = 0x90407F ∧
    (∀ (q : List (List Nat)) (msg : List Nat), 4 ≤ msg.length →
        handleIncomingMidiMessage q msg = q) := by
  have e0 : b0 <<< 16 = 65536 * b0 := by rw [Nat.shiftLeft_eq]; ring
  have e1 : b1 <<< 8 = 256 * b1 := by rw [Nat.shiftLeft_eq]; ring
  have h8 : (b1 <<< 8) ||| b2 = b1 <<< 8 + b2 := by
    rw [e1, ← Nat.mul_add_lt_is_or (show b2 < 2 ^ 8 by omega) b1]
  have h16a : (b0 <<< 16) ||| (b1 <<< 8 + b2) = b0 <<< 16 + (b1 <<< 8 + b2) := by
    rw [e0, ← Nat.mul_add_lt_is_or (show b1 <<< 8 + b2 < 2 ^ 16 by rw [e1]; omega) b0]
  have h16b : (b0 <<< 16) ||| (b1 <<< 8) = b0 <<< 16 + b1 <<< 8 := by
    rw [e0, ← Nat.mul_add_lt_is_or (show b1 <<< 8 < 2 ^ 16 by rw [e1]; omega) b0]
  refine ⟨?_, ?_, ?_, by decide, ?_⟩
  · show ((b0 <<< 16) ||| (b1 <<< 8)) ||| b2 = _
    rw [Nat.lor_assoc, h8, h16a, e0, e1]; ring
  · show (b0 <<< 16) ||| (b1 <<< 8) = _
    rw [h16b, e0, e1]; ring
  · show b0 <<< 16 = _
    rw [e0]; ring
  · intro q msg hlen
    unfold handleIncomingMidiMessage
    rw [if_neg]
    omega

/-- Witness for claim C4: the note-on message [0x90, 0x40, 0x7F] packs to
0x90407F, and a 4-byte system-exclusive message is dropped. -/
theorem claim_C4_witness :
    packMIDIMessageIntoInt [144, 64, 127] = 9453695 ∧
    handleIncomingMidiMessage [] [240, 1, 2, 247] = [] := by
  have h := claim_C4_midiPacking 144 64 127 (by decide) (by decide)
  exact ⟨h.2.2.2.1, h.2.2.2.2 [] [240, 1, 2, 247] (by decide)⟩

/-! ## Claim C8: the active-session registry -/

/-- removeFirst only ever drops elements. -/
lemma removeFirst_sublist (l : List Nat) (s : Nat) :
    List.Sublist (removeFirst l s) l := by
  induction l with
  | nil => simp [removeFirst]
  | cons x rest ih =>
      by_cases h : x = s
      · rw [removeFirst, if_pos h]
        exact List.sublist_cons_self x rest
      · rw [removeFirst, if_neg h]
        exact List.Sublist.cons₂ x ih

/-- removeFirst of an absent element changes nothing. -/
lemma removeFirst_not_mem (l : List Nat) (s : Nat) (h : s ∉ l) :
    removeFirst l s = l := by
  induction l with
  | nil => rfl
  | cons x rest ih =>
      simp only [List.mem_cons] at h
      push_neg at h
      simp [removeFirst, Ne.symm h.1, ih h.2]

/-- After removing a session from a duplicate-free registry, the session
is gone. -/
lemma not_mem_removeFirst (l : List Nat) (s : Nat) (hn : l.Nodup) :
    s ∉ removeFirst l s := by
  induction l with
  | nil => simp [removeFirst]
  | cons x rest ih =>
      rcases List.nodup_cons.mp hn with ⟨hx, hrest⟩
      by_cases h : x = s
      · subst h
        simpa [removeFirst] using hx
      · simp [removeFirst, h]
        exact ⟨fun hs => h (hs.symm), ih hrest⟩

/-- Claim C8: the active-session registry never holds a session twice —
both operations preserve the no-duplicates invariant — and the operations
are idempotent: starting an already-registered session and stopping an
unregistered session leave the registry unchanged, and a repeated start or
stop has no further effect. -/
theorem claim_C8_registry (l : List Nat) (s t : Nat) (hn : l.Nodup) :
    (startSession l s).1.Nodup ∧
    (stopSession l t).1.Nodup ∧
    (s ∈ l → (startSession l s).1 = l) ∧
    (t ∉ l → (stopSession l t).1 = l) ∧
    (startSession (startSession l s).1 s).1 = (startSession l s).1 ∧
    (stopSession (stopSession l t).1 t).1 = (stopSession l t).1 := by
  refine ⟨?_, ?_, ?_, ?_, ?_, ?_⟩
  · by_cases hm : s ∈ l
    · simp [startSession, hm, hn]
    · simp [startSession, hm, List.nodup_append, hn]
  · exact List.Nodup.sublist (removeFirst_sublist l t) hn
  · intro hmem
    simp [startSession, hmem]
  · intro hmem
    simp [stopSession, removeFirst_not_mem l t hmem]
  · by_cases hm : s ∈ l
    · simp [startSession, hm]
    · simp [startSession, hm]
  · simp [stopSession, removeFirst_not_mem (removeFirst l t) t (not_mem_removeFirst l t hn)]

/-- Witness for claim C8 on the concrete registry [1, 2]: starting the
already-registered session 1 and stopping the unregistered session 5 both
leave the registry unchanged. -/
theorem claim_C8_witness :
    (startSession [1, 2] 1).1 = [1, 2] ∧ (stopSession [1, 2] 5).1 = [1, 2] := by
  have h := claim_C8_registry [1, 2] 1 5 (by decide)
  exact ⟨h.2.2.1 (by decide), h.2.2.2.1 (by decide)⟩

/-! ## Claim C10: Requirements sanitization in the venue constructor -/

/-- Claim C10: the constructor replaces a requested sampleRate outside
[1000, 384000] by 0 and keeps an in-range one, likewise a blockSize
outside [1, 2048]; consequently the values handed to the device open call
are either 0 (delegate to the device default) or in range — an
out-of-range request never reaches the device. -/
theorem claim_C10_sanitize (r : Requirements) :
    ((r.sampleRate < 1000 ∨ r.sampleRate > 384000) →
        (sanitizeRequirements r).sampleRate = 0) ∧
    ((1000 ≤ r.sampleRate ∧ r.sampleRate ≤ 384000) →
        (sanitizeRequirements r).sampleRate = r.sampleRate) ∧
    ((r.blockSize < 1 ∨ r.blockSize > 2048) →
        (sanitizeRequirements r).blockSize = 0) ∧
    ((1 ≤ r.blockSize ∧ r.blockSize ≤ 2048) →
        (sanitizeRequirements r).blockSize = r.blockSize) ∧
    ((venueConstructorDeviceArgs r).1 = 0 ∨
        (1000 ≤ (venueConstructorDeviceArgs r).1 ∧
         (venueConstructorDeviceArgs r).1 ≤ 384000)) ∧
    ((venueConstructorDeviceArgs r).2 = 0 ∨
        (1 ≤ (venueConstructorDeviceArgs r).2 ∧
         (venueConstructorDeviceArgs r).2 ≤ 2048)) := by
  refine ⟨fun h => ?_, fun h => ?_, fun h => ?_, fun h => ?_, ?_, ?_⟩
  · simp only [sanitizeRequirements]
    rw [if_pos]
    rcases h with h | h
    · exact Or.inl h
    · exact Or.inr (by linarith)
  · simp only [sanitizeRequirements]
    rw [if_neg]
    push_neg
    exact ⟨h.1, by linarith [h.2]⟩
  · simp only [sanitizeRequirements]
    rw [if_pos h]
  · simp only [sanitizeRequirements]
    rw [if_neg]
    push_neg
    omega
  · simp only [venueConstructorDeviceArgs, sanitizeRequirements]
    by_cases h : r.sampleRate < 1000 ∨ r.sampleRate > 48000 * 8
    · simp [h]
    · rw [if_neg h]
      push_neg at h
      exact Or.inr ⟨h.1, by linarith [h.2]⟩
  · simp only [venueConstructorDeviceArgs, sanitizeRequirements]
    by_cases h : r.blockSize < 1 ∨ r.blockSize > 2048
    · simp [h]
    · rw [if_neg h]
      push_neg at h
      exact Or.inr ⟨by omega, by omega⟩

/-- Witness for claim C10: a request for a 500 Hz sample rate and a
5000-sample block is replaced by the delegate-to-default value 0 in both
fields. -/
theorem claim_C10_witness :
    (sanitizeRequirements { sampleRate := 500, blockSize := 5000 }).sampleRate = 0 ∧
    (sanitizeRequirements { sampleRate := 500, blockSize := 5000 }).blockSize = 0 := by
  have h := claim_C10_sanitize { sampleRate := 500, blockSize := 5000 }
  exact ⟨h.1 (Or.inl (by norm_num)), h.2.2.1 (Or.inr (by norm_num))⟩

/-! ## Claim C6: failure cases of endpoint connection -/

/-- Claim C6: connectSessionInputEndpoint and connectSessionOutputEndpoint
return false and leave the session untouched whenever no audio device is
open, the venue endpoint id is absent from the published sources
(respectively sinks), or the kinds mismatch: a stream endpoint of the
program requested against a MIDI venue endpoint, or an event endpoint
against a non-MIDI venue endpoint. -/
theorem claim_C6_connect (v : VenueModel) (s : Session) (pid vid : Nat) :
    (v.audioDeviceOpen = false →
        connectSessionInputEndpoint v s pid vid = (s, false) ∧
        connectSessionOutputEndpoint v s pid vid = (s, false)) ∧
    ((∀ e ∈ v.sourceEndpoints, e.endpointID ≠ vid) →
        connectSessionInputEndpoint v s pid vid = (s, false)) ∧
    ((∀ e ∈ v.sinkEndpoints, e.endpointID ≠ vid) →
        connectSessionOutputEndpoint v s pid vid = (s, false)) ∧
    (∀ e, findEndpoint v.sourceEndpoints vid = some e →
        ∀ k, s.perf.inputEndpoints.lookup pid = some k →
          ((isStream k = true ∧ e.isMIDI = true) ∨
           (isEvent k = true ∧ e.isMIDI = false)) →
          connectSessionInputEndpoint v s pid vid = (s, false)) ∧
    (∀ e, findEndpoint v.sinkEndpoints vid = some e →
        ∀ k, s.perf.outputEndpoints.lookup pid = some k →
          ((isStream k = true ∧ e.isMIDI = true) ∨
           (isEvent k = true ∧ e.isMIDI = false)) →
          connectSessionOutputEndpoint v s pid vid = (s, false)) := by
  refine ⟨?_, ?_, ?_, ?_, ?_⟩
  · intro h
    constructor <;> simp [connectSessionInputEndpoint, connectSessionOutputEndpoint, h]
  · intro hmem
    have hnone : findEndpoint v.sourceEndpoints vid = none := by
      unfold findEndpoint
      rw [List.find?_eq_none]
      intro e he
      simpa using hmem e he
    by_cases hopen : v.audioDeviceOpen <;>
      simp [connectSessionInputEndpoint, hopen, hnone]
  · intro hmem
    have hnone : findEndpoint v.sinkEndpoints vid = none := by
      unfold findEndpoint
      rw [List.find?_eq_none]
      intro e he
      simpa using hmem e he
    by_cases hopen : v.audioDeviceOpen <;>
      simp [connectSessionOutputEndpoint, hopen, hnone]
  · intro e hfind k hk hmis
    by_cases hopen : v.audioDeviceOpen
    · cases k <;>
        rcases hmis with ⟨h1, h2⟩ | ⟨h1, h2⟩ <;>
        simp_all [connectSessionInputEndpoint, connectInputEndpoint,
                  isStream, isEvent, hopen, hfind, hk]
    · simp [connectSessionInputEndpoint, hopen]
  · intro e hfind k hk hmis
    by_cases hopen : v.audioDeviceOpen
    · cases k <;>
        rcases hmis with ⟨h1, h2⟩ | ⟨h1, h2⟩ <;>
        simp_all [connectSessionOutputEndpoint, connectOutputEndpoint,
                  isStream, isEvent, hopen, hfind, hk]
    · simp [connectSessionOutputEndpoint, hopen]

/-- Witness for claim C6 at concrete inputs: with no device open the
input connection fails and changes nothing, and with a device open a
stream program endpoint requested against the published MIDI source also
fails and changes nothing. -/
theorem claim_C6_witness :
    connectSessionInputEndpoint
        { audioDeviceOpen := false, sourceEndpoints := [], sinkEndpoints := [] }
        (mkSession State.linked) 0 0 = (mkSession State.linked, false) ∧
    connectSessionInputEndpoint
        { audioDeviceOpen := true
          sourceEndpoints :=
            [{ endpointID := 10, kind := EndpointKind.event,
               audioChannelIndex := 0, isMIDI := true }]
          sinkEndpoints := [] }
        { perf := { accepts := fun _ => true, program := none,
                    inputEndpoints := [(7, EndpointKind.stream)], outputEndpoints := [] }
          audioDeviceInputStream := none
          audioDeviceOutputStream := none
          midiEventQueue := none
          state := State.linked } 7 10
      = ({ perf := { accepts := fun _ => true, program := none,
                     inputEndpoints := [(7, EndpointKind.stream)], outputEndpoints := [] }
           audioDeviceInputStream := none
           audioDeviceOutputStream := none
           midiEventQueue := none
           state := State.linked }, false) := by
  constructor
  · exact ((claim_C6_connect
      { audioDeviceOpen := false, sourceEndpoints := [], sinkEndpoints := [] }
      (mkSession State.linked) 0 0).1 rfl).1
  · exact (claim_C6_connect _ _ 7 10).2.2.2.1
      { endpointID := 10, kind := EndpointKind.event,
        audioChannelIndex := 0, isMIDI := true } rfl
      EndpointKind.stream rfl (Or.inl ⟨rfl, rfl⟩)

/-! ## Claim C5: the stalled-processor watchdog -/

/-- After a check, the recorded count always equals the observed count. -/
lemma check_last (w : WatchdogState) (n c : Nat) :
    ((checkForStalledProcessor w n c).1).lastCallbackCount = c := by
  by_cases h : w.lastCallbackCount ≠ c
  · simp [checkForStalledProcessor, h]
  · push_neg at h
    simp [checkForStalledProcessor, h]

/-- A check that observes an advanced count records it with the current
time. -/
lemma check_change (w : WatchdogState) (n c : Nat) (h : w.lastCallbackCount ≠ c) :
    (checkForStalledProcessor w n c).1 =
      { lastCallbackCount := c, lastCallbackCountChange := n } := by
  simp [checkForStalledProcessor, h]

/-- A check that observes no advance leaves the recorded state alone. -/
lemma check_nochange (w : WatchdogState) (n c : Nat) (h : w.lastCallbackCount = c) :
    (checkForStalledProcessor w n c).1 = w := by
  simp [checkForStalledProcessor, h]

/-- The termination condition of a check, phrased through the updated
state. -/
lemma check_fired (w : WatchdogState) (n c : Nat) :
    (checkForStalledProcessor w n c).2 =
      decide (c ≠ 0 ∧
        n > ((checkForStalledProcessor w n c).1).lastCallbackCountChange +
              stallTimeoutSeconds) := by
  by_cases h : w.lastCallbackCount ≠ c
  · simp [checkForStalledProcessor, h]
  · push_neg at h
    simp [checkForStalledProcessor, h]

/-- Unfolding equation for one watchdog step along a trace. -/
lemma wdState_succ (now count : Nat → Nat) (k : Nat) :
    wdState now count (k + 1) =
      (checkForStalledProcessor (wdState now count k) (now k) (count k)).1 := rfl

/-- After processing observation k, the recorded count is the observed
count. -/
lemma wdState_last (now count : Nat → Nat) (k : Nat) :
    (wdState now count (k + 1)).lastCallbackCount = count k := by
  rw [wdState_succ]
  exact check_last _ _ _

/-- The k-th check terminates the process exactly when the observed count
is nonzero and the observation time exceeds the recorded last-change time
by more than the timeout. -/
lemma wdFires_iff (now count : Nat → Nat) (k : Nat) :
    wdFires now count k = true ↔
      count k ≠ 0 ∧
        now k > (wdState now count (k + 1)).lastCallbackCountChange +
                  stallTimeoutSeconds := by
  rw [wdFires, check_fired, wdState_succ]
  exact decide_eq_true_iff

/-- When a nonzero count is observed at step k, the recorded last-change
time is the time of some earlier observation i from which the count never
changed up to k. -/
lemma wdChange_exists (now count : Nat → Nat) :
    ∀ k, count k ≠ 0 →
      ∃ i, i ≤ k ∧
        (wdState now count (k + 1)).lastCallbackCountChange = now i ∧
        ∀ j, i ≤ j → j ≤ k → count j = count k := by
  intro k
  induction k with
  | zero =>
      intro h0
      refine ⟨0, le_refl 0, ?_, ?_⟩
      · rw [wdState_succ, check_change _ _ _ (by exact Ne.symm h0)]
      · intro j hj1 hj2
        have hj : j = 0 := Nat.le_zero.mp hj2
        subst hj; rfl
  | succ k ih =>
      intro hk1
      by_cases hc : (wdState now count (k + 1)).lastCallbackCount ≠ count (k + 1)
      · refine ⟨k + 1, le_refl _, ?_, ?_⟩
        · rw [wdState_succ, check_change _ _ _ hc]
        · intro j h1 h2
          have hj : j = k + 1 := le_antisymm h2 h1
          subst hj; rfl
      · push_neg at hc
        have hprev : count k = count (k + 1) := by
          rw [← wdState_last now count k]; exact hc
        obtain ⟨i, hik, hch, hconst⟩ := ih (by rw [hprev]; exact hk1)
        refine ⟨i, le_trans hik (Nat.le_succ k), ?_, ?_⟩
        · rw [wdState_succ, check_nochange _ _ _ hc]
          exact hch
        · intro j h1 h2
          by_cases hj : j ≤ k
          · rw [hconst j h1 hj, hprev]
          · have hj2 : j = k + 1 := by omega
            subst hj2; rfl

/-- With time advancing monotonically, the recorded last-change time never
lies in the future of the latest observation. -/
lemma wdChange_le (now count : Nat → Nat)
    (hmono : ∀ i j, i ≤ j → now i ≤ now j) :
    ∀ k, (wdState now count (k + 1)).lastCallbackCountChange ≤ now k := by
  intro k
  induction k with
  | zero =>
      rw [wdState_succ]
      by_cases h : (wdState now count 0).lastCallbackCount ≠ count 0
      · rw [check_change _ _ _ h]
      · push_neg at h
        rw [check_nochange _ _ _ h]
        exact Nat.zero_le _
  | succ k ih =>
      rw [wdState_succ]
      by_cases h : (wdState now count (k + 1)).lastCallbackCount ≠ count (k + 1)
      · rw [check_change _ _ _ h]
      · push_neg at h
        rw [check_nochange _ _ _ h]
        exact le_trans ih (hmono k (k + 1) (Nat.le_succ k))

/-- While the counter stays constant, the watchdog state does not move. -/
lemma wdState_const (now count : Nat → Nat) (i k : Nat) (hik : i ≤ k)
    (hconst : ∀ j, i ≤ j → j ≤ k → count j = count i) :
    wdState now count (k + 1) = wdState now count (i + 1) := by
  induction k, hik using Nat.le_induction with
  | base => rfl
  | succ k hik2 ih =>
      rw [wdState_succ]
      have heq : (wdState now count (k + 1)).lastCallbackCount = count (k + 1) := by
        rw [wdState_last, hconst k (by omega) (by omega),
            hconst (k + 1) (by omega) (by omega)]
      rw [check_nochange _ _ _ heq]
      exact ih (fun j h1 h2 => hconst j h1 (by omega))

/-- A live process has survived every earlier check. -/
lemma wdAlive_not_fires (now count : Nat → Nat) (k : Nat)
    (h : wdAlive now count k = true) :
    ∀ j, j < k → wdFires now count j = false := by
  intro j hj
  have := List.all_eq_true.mp h j (List.mem_range.mpr hj)
  simpa using this

/-- A duplicate-free list keeps at most one element of a predicate that
holds for at most one value. -/
lemma filter_length_le_one {p : Nat → Bool} (l : List Nat) (hl : l.Nodup)
    (huniq : ∀ a b, p a = true → p b = true → a = b) :
    (l.filter p).length ≤ 1 := by
  rcases hm : l.filter p with _ | ⟨a, t⟩
  · simp
  · rcases t with _ | ⟨b, t2⟩
    · simp
    · exfalso
      have hnod : (l.filter p).Nodup := List.Nodup.filter p hl
      rw [hm] at hnod
      have haf : a ∈ l.filter p := by rw [hm]; simp
      have hbf : b ∈ l.filter p := by rw [hm]; simp
      have hab := huniq a b (List.mem_filter.mp haf).2 (List.mem_filter.mp hbf).2
      rcases List.nodup_cons.mp hnod with ⟨hna, _⟩
      exact hna (by rw [hab]; exact List.mem_cons_self b t2)

/-- Claim C5: along any trace of watchdog checks with monotone time, the
watchdog terminates the process within the first n checks iff the
per-callback counter has advanced to a nonzero value by some observation
i and then fails to advance through some later observation k whose time
exceeds that of i by more than the 2-second timeout; and the termination
path fires at most once over the whole trace — exactly once whenever the
stall condition occurs. -/
theorem claim_C5_watchdog (now count : Nat → Nat) (n : Nat)
    (hmono : ∀ i j, i ≤ j → now i ≤ now j) :
    ((∃ k, k < n ∧ wdFires now count k = true) ↔
      (∃ i k, i ≤ k ∧ k < n ∧ count i ≠ 0 ∧
        (∀ j, i ≤ j → j ≤ k → count j = count i) ∧
        now i + stallTimeoutSeconds < now k)) ∧
    wdTerminationCount now count n ≤ 1 ∧
    ((∃ k, k < n ∧ wdFires now count k = true) →
      wdTerminationCount now count n = 1) := by
  have huniq : ∀ a b,
      (wdAlive now count a && wdFires now count a) = true →
      (wdAlive now count b && wdFires now count b) = true → a = b := by
    intro a b ha hb
    simp only [Bool.and_eq_true] at ha hb
    obtain ⟨haa, haf⟩ := ha
    obtain ⟨hba, hbf⟩ := hb
    by_contra hne
    rcases Nat.lt_or_ge a b with hlt | hge
    · rw [wdAlive_not_fires now count b hba a hlt] at haf
      exact Bool.false_ne_true haf
    · have hlt2 : b < a := Nat.lt_of_le_of_ne hge (fun e => hne e.symm)
      rw [wdAlive_not_fires now count a haa b hlt2] at hbf
      exact Bool.false_ne_true hbf
  have hle : wdTerminationCount now count n ≤ 1 :=
    filter_length_le_one (List.range n) (List.nodup_range n) huniq
  refine ⟨⟨?_, ?_⟩, hle, ?_⟩
  · rintro ⟨k, hkn, hf⟩
    rcases (wdFires_iff now count k).mp hf with ⟨hc, hgt⟩
    obtain ⟨i, hik, hch, hconst⟩ := wdChange_exists now count k hc
    refine ⟨i, k, hik, hkn, ?_, ?_, ?_⟩
    · rw [hconst i (le_refl i) hik]; exact hc
    · intro j h1 h2
      rw [hconst j h1 h2, hconst i (le_refl i) hik]
    · rw [← hch]; exact hgt
  · rintro ⟨i, k, hik, hkn, hci, hconst, hlt⟩
    refine ⟨k, hkn, (wdFires_iff now count k).mpr ⟨?_, ?_⟩⟩
    · rw [hconst k hik (le_refl k)]; exact hci
    · have h1 : wdState now count (k + 1) = wdState now count (i + 1) :=
        wdState_const now count i k hik hconst
      have h2 : (wdState now count (i + 1)).lastCallbackCountChange ≤ now i :=
        wdChange_le now count hmono i
      rw [h1]
      omega
  · rintro ⟨k, hkn, hf⟩
    have hex : ∃ j, wdFires now count j = true := ⟨k, hf⟩
    have hfind := Nat.find_spec hex
    have hkn0 : Nat.find hex < n := Nat.lt_of_le_of_lt (Nat.find_min' hex hf) hkn
    have halive : wdAlive now count (Nat.find hex) = true := by
      rw [wdAlive, List.all_eq_true]
      intro j hj
      have hjlt := List.mem_range.mp hj
      have hnp := Nat.find_min hex hjlt
      simpa using hnp
    have hmem : Nat.find hex ∈
        (List.range n).filter
          (fun j => wdAlive now count j && wdFires now count j) := by
      rw [List.mem_filter]
      exact ⟨List.mem_range.mpr hkn0, by rw [halive, hfind]; rfl⟩
    have hpos : 0 < wdTerminationCount now count n :=
      List.length_pos_of_mem hmem
    omega

/-- Witness for claim C5: checks at one-second intervals observing a
counter frozen at 1 from the start; the stall is noticed within four
checks, and the termination path fires exactly once. -/
theorem claim_C5_witness :
    wdTerminationCount (fun k => k) (fun _ => 1) 4 = 1 := by
  have h := claim_C5_watchdog (fun k => k) (fun _ => 1) 4 (fun i j hij => hij)
  exact h.2.2 (h.1.mpr ⟨0, 3, by omega, by omega, by decide,
    fun j _ _ => rfl, by decide⟩)

end SoulAudioPlayer
